import Mathlib

/-!
Verification development for the SmartResumeAI repository.

The repository's decision-relevant logic lives in `app/core/ai_manager.py`
(structured extraction, resume optimization, provider configuration) and in
the skill-matching list comprehensions of `app/frontend/ui.py`.  Python
strings are modelled as `List Char`; Python dicts produced by `json.loads`
are modelled by the inductive type `Json`.  The language-model backend
(`chain.invoke`), the stdlib `json.loads` / `json.dumps`, and the database
lookup are external collaborators and enter as explicit function/value
parameters; everything else is translated directly from the source.
-/

/-- Python `str.strip()` whitespace test (ASCII whitespace characters). -/
def pyIsSpace (c : Char) : Bool :=
  c = ' ' || c = '\t' || c = '\n' || c = '\r' || c = '\x0b' || c = '\x0c'

/-- Python `str.strip()`: drop whitespace from both ends. -/
def pyStrip (l : List Char) : List Char :=
  ((l.dropWhile pyIsSpace).reverse.dropWhile pyIsSpace).reverse

/-- Python `str.lower()`, restricted to the ASCII range (the provider and
skill strings the claims are about are ASCII). -/
def pyLower (l : List Char) : List Char := l.map Char.toLower

/-- Split a character list at the first (leftmost) occurrence of `sep`:
`some (pre, post)` with the input equal to `pre ++ sep ++ post`, or `none`
when `sep` does not occur.  This is the primitive behind Python's
`str.split`, `in`, and `find` as used by the repository. -/
def splitFirst? (sep : List Char) : List Char → Option (List Char × List Char)
  | [] => if sep.isEmpty then some ([], []) else none
  | c :: rest =>
    if sep.isPrefixOf (c :: rest) then
      some ([], (c :: rest).drop sep.length)
    else
      match splitFirst? sep rest with
      | some (pre, post) => some (c :: pre, post)
      | none => none

/-- Python `sep in s` (substring containment). -/
def containsSeq (sep l : List Char) : Bool := (splitFirst? sep l).isSome

/-- Python `s.split(sep)[0]`: the part before the first occurrence of
`sep`, or all of `s` when `sep` does not occur. -/
def beforeFirstOrAll (sep l : List Char) : List Char :=
  match splitFirst? sep l with
  | some (pre, _) => pre
  | none => l

/-- The text after the first occurrence of `sep` (`[]` when absent). -/
def afterFirstD (sep l : List Char) : List Char :=
  match splitFirst? sep l with
  | some (_, post) => post
  | none => []

/-- Python `s.split(sep)[1]`, defined when `sep` occurs in `s` (the guarded
use in the source): the text after the first occurrence of `sep`, cut at
the next occurrence of `sep`. -/
def pySplitGet1 (sep l : List Char) : List Char :=
  match splitFirst? sep l with
  | some (_, post) => beforeFirstOrAll sep post
  | none => []

/-- Python `s.split("\n")` (single-character separator, all pieces). -/
def splitNL : List Char → List (List Char)
  | [] => [[]]
  | c :: rest =>
    match splitNL rest with
    | h :: t => if c = '\n' then [] :: h :: t else (c :: h) :: t
    | [] => [[c]]

/-- JSON values as produced by `json.loads` (numbers restricted to the
integers, which is all the development needs). -/
inductive Json where
  | null : Json
  | bool (b : Bool) : Json
  | num (n : Int) : Json
  | str (s : List Char) : Json
  | arr (elems : List Json) : Json
  | obj (fields : List (List Char × Json)) : Json
deriving Repr

/-- Python truthiness of a JSON value (`if not job_analysis:`). -/
def jsonFalsy : Json → Bool
  | .null => true
  | .bool b => !b
  | .num n => n == 0
  | .str s => s.isEmpty
  | .arr xs => xs.isEmpty
  | .obj kvs => kvs.isEmpty

/-- Number of fields of an object (discriminates `obj []` from others). -/
def Json.objFieldCount : Json → Nat
  | .obj kvs => kvs.length
  | _ => 0

/-- JSON whitespace (as skipped by a strict JSON parser). -/
def jsonWsChar (c : Char) : Bool :=
  c = ' ' || c = '\t' || c = '\n' || c = '\r'

def skipWs (l : List Char) : List Char := l.dropWhile jsonWsChar

def isDigitChar (c : Char) : Bool := '0' ≤ c && c ≤ '9'

/-- Accumulate a run of decimal digits. -/
def digitsToNat : Nat → List Char → Nat × List Char
  | acc, [] => (acc, [])
  | acc, c :: rest =>
    if isDigitChar c then digitsToNat (acc * 10 + (c.toNat - '0'.toNat)) rest
    else (acc, c :: rest)

/-- Parse an (optionally negated) integer literal. -/
def parseNumber (l : List Char) : Option (Json × List Char) :=
  match l with
  | '-' :: rest =>
    match rest with
    | c :: _ =>
      if isDigitChar c then
        let p := digitsToNat 0 rest
        some (Json.num (-(Int.ofNat p.1)), p.2)
      else none
    | [] => none
  | c :: _ =>
    if isDigitChar c then
      let p := digitsToNat 0 l
      some (Json.num (Int.ofNat p.1), p.2)
    else none
  | [] => none

/-- Parse the body of a JSON string (after the opening quote), handling the
single-character escapes; `\u` escapes are rejected (no witness uses them). -/
def parseStringBody : List Char → Option (List Char × List Char)
  | [] => none
  | c :: rest =>
    if c = '"' then some ([], rest)
    else if c = '\\' then
      match rest with
      | [] => none
      | e :: rest2 =>
        let esc? : Option Char :=
          if e = '"' then some '"'
          else if e = '\\' then some '\\'
          else if e = '/' then some '/'
          else if e = 'n' then some '\n'
          else if e = 't' then some '\t'
          else if e = 'r' then some '\r'
          else if e = 'b' then some '\x08'
          else if e = 'f' then some '\x0c'
          else none
        match esc? with
        | some ch => (parseStringBody rest2).map (fun pr => (ch :: pr.1, pr.2))
        | none => none
    else (parseStringBody rest).map (fun pr => (c :: pr.1, pr.2))

mutual

/-- Fuel-indexed strict JSON value parser. -/
def parseValue : Nat → List Char → Option (Json × List Char)
  | 0, _ => none
  | Nat.succ f, l =>
    match skipWs l with
    | [] => none
    | c :: rest =>
      if c = '\x7b' then parseObjBody f rest
      else if c = '[' then parseArrBody f rest
      else if c = '"' then (parseStringBody rest).map (fun pr => (Json.str pr.1, pr.2))
      else if "true".data.isPrefixOf (c :: rest) then some (Json.bool true, (c :: rest).drop 4)
      else if "false".data.isPrefixOf (c :: rest) then some (Json.bool false, (c :: rest).drop 5)
      else if "null".data.isPrefixOf (c :: rest) then some (Json.null, (c :: rest).drop 4)
      else parseNumber (c :: rest)

/-- Object parser, positioned after the opening brace. -/
def parseObjBody : Nat → List Char → Option (Json × List Char)
  | 0, _ => none
  | Nat.succ f, l =>
    match skipWs l with
    | [] => none
    | c :: rest =>
      if c = '\x7d' then some (Json.obj [], rest)
      else parseMembers f (c :: rest) []

/-- Object members parser, positioned at a `"key": value` member. -/
def parseMembers : Nat → List Char → List (List Char × Json) → Option (Json × List Char)
  | 0, _, _ => none
  | Nat.succ f, l, acc =>
    match skipWs l with
    | [] => none
    | c :: rest =>
      if c = '"' then
        match parseStringBody rest with
        | none => none
        | some (key, r1) =>
          match skipWs r1 with
          | ':' :: r2 =>
            match parseValue f r2 with
            | none => none
            | some (v, r3) =>
              match skipWs r3 with
              | ',' :: r4 => parseMembers f r4 (acc ++ [(key, v)])
              | '\x7d' :: r4 => some (Json.obj (acc ++ [(key, v)]), r4)
              | _ => none
          | _ => none
      else none

/-- Array parser, positioned after the opening bracket. -/
def parseArrBody : Nat → List Char → Option (Json × List Char)
  | 0, _ => none
  | Nat.succ f, l =>
    match skipWs l with
    | ']' :: rest => some (Json.arr [], rest)
    | _ => parseElems f l []

/-- Array elements parser. -/
def parseElems : Nat → List Char → List Json → Option (Json × List Char)
  | 0, _, _ => none
  | Nat.succ f, l, acc =>
    match parseValue f l with
    | none => none
    | some (v, r1) =>
      match skipWs r1 with
      | ',' :: r2 => parseElems f r2 (acc ++ [v])
      | ']' :: r2 => some (Json.arr (acc ++ [v]), r2)
      | _ => none

end

/-- A concrete strict JSON parser (a particular instantiation of the
stdlib `json.loads` collaborator, used by witnesses; the theorems quantify
over the `loads` function).  Requires the whole input to be consumed up to
trailing whitespace, as `json.loads` does. -/
def jsonLoads (l : List Char) : Option Json :=
  match parseValue (3 * l.length + 9) l with
  | none => none
  | some (v, rest) => if skipWs rest = [] then some v else none

/-- The labeled fence marker, Python literal `'```json'`. -/
def jsonFenceMarker : List Char := "```json".data

/-- The bare fence marker, Python literal `'```'`. -/
def fenceMarker : List Char := "```".data

/-- The candidate-substring selection inlined three times in
`ai_manager.py` (`parse_resume`, `analyze_job_description`,
`optimize_resume_for_job`):

    if '```json' in result_text:
        json_str = result_text.split('```json')[1].split('```')[0].strip()
    elif '```' in result_text:
        json_str = result_text.split('```')[1].split('```')[0].strip()
    else:
        json_str = result_text
-/
def extract_json_candidate (result_text : List Char) : List Char :=
  if containsSeq jsonFenceMarker result_text then
    pyStrip (beforeFirstOrAll fenceMarker (pySplitGet1 jsonFenceMarker result_text))
  else if containsSeq fenceMarker result_text then
    pyStrip (beforeFirstOrAll fenceMarker (pySplitGet1 fenceMarker result_text))
  else result_text

/-- PromptResponseParser `extract_json`: the candidate substring handed to
the strict JSON parse (`loads`, the stdlib collaborator); `none` models the
ExtractionFailure signal (`json.JSONDecodeError`). -/
def extract_json (loads : List Char → Option Json) (result_text : List Char) : Option Json :=
  loads (extract_json_candidate result_text)

/-- Modelled from the spec's words for claim C3 (refinement comparison):
"if the text contains a ```json marker, take the substring between the
first occurrence of that marker and the next ``` marker; else if it
contains any ``` marker, take the substring between the first pair of
``` markers; else use the text unmodified. Trim surrounding whitespace". -/
def spec_candidate (t : List Char) : List Char :=
  pyStrip (
    if containsSeq jsonFenceMarker t then
      beforeFirstOrAll fenceMarker (afterFirstD jsonFenceMarker t)
    else if containsSeq fenceMarker t then
      beforeFirstOrAll fenceMarker (afterFirstD fenceMarker t)
    else t)

/-- The amended candidate-selection description (claim C3): in the
```json branch the remainder is first cut at the next ```json occurrence
(the source splits on the labeled marker first), then at the first ```
within it; the no-fence branch is not trimmed. -/
def amended_candidate (t : List Char) : List Char :=
  if containsSeq jsonFenceMarker t then
    pyStrip (beforeFirstOrAll fenceMarker
      (beforeFirstOrAll jsonFenceMarker (afterFirstD jsonFenceMarker t)))
  else if containsSeq fenceMarker t then
    pyStrip (beforeFirstOrAll fenceMarker (afterFirstD fenceMarker t))
  else t

/-- Fixed instruction template of `parse_resume` (the long JSON schema
example block inside the template string is abridged; no claim depends on
the prompt wording). -/
def resumePrompt (resume_text : List Char) : List Char :=
  ("You are an expert resume parser. Your task is to extract structured " ++
   "information from the following resume. Extract the information in " ++
   "JSON format. Resume: ").data ++ resume_text ++
  (" Respond ONLY with the JSON object. No other text before or after.").data

/-- Fixed instruction template of `analyze_job_description` (abridged as
above). -/
def jobPrompt (job_desc : List Char) : List Char :=
  ("You are an expert at analyzing job descriptions. Your task is to " ++
   "extract structured information from the following job description. " ++
   "Extract the information in JSON format. Job Description: ").data ++ job_desc ++
  (" Respond ONLY with the JSON object. No other text before or after.").data

/-- Fixed instruction template of `optimize_resume_for_job` (abridged as
above). -/
def optimizePrompt (resume_data job_description job_analysis : List Char) : List Char :=
  ("You are an expert resume optimizer. Your task is to optimize the " ++
   "resume for the specific job. Resume Data: ").data ++ resume_data ++
  (" Job Description: ").data ++ job_description ++
  (" Job Analysis: ").data ++ job_analysis ++
  (" Optimize the resume. Respond ONLY with the JSON object. " ++
   "No other text before or after.").data

/-- `parse_resume` (ai_manager.py:98).  `complete` is the language-model
backend applied to the built prompt (`Except.error` models a raised
backend/auth/network exception, caught by the outer handler); `loads` is
the stdlib strict JSON parse.  Both failure kinds degrade to the empty
mapping `Json.obj []`; the function itself is total (never raises). -/
def parse_resume (loads : List Char → Option Json)
    (complete : List Char → Except Unit (List Char))
    (resume_text : List Char) : Json :=
  match complete (resumePrompt resume_text) with
  | .error _ => Json.obj []
  | .ok result_text =>
    match loads (extract_json_candidate result_text) with
    | some parsed_data => parsed_data
    | none => Json.obj []

/-- `analyze_job_description` (ai_manager.py:229), same structure as
`parse_resume`. -/
def analyze_job_description (loads : List Char → Option Json)
    (complete : List Char → Except Unit (List Char))
    (job_desc_text : List Char) : Json :=
  match complete (jobPrompt job_desc_text) with
  | .error _ => Json.obj []
  | .ok result_text =>
    match loads (extract_json_candidate result_text) with
    | some parsed_data => parsed_data
    | none => Json.obj []

/-- A row of the `experiences` table (nullable string columns). -/
structure Experience where
  company : Option (List Char)
  title : Option (List Char)
  location : Option (List Char)
  start_date : Option (List Char)
  end_date : Option (List Char)
  description : Option (List Char)
  achievements : Option (List Char)

/-- A row of the `educations` table. -/
structure Education where
  institution : Option (List Char)
  degree : Option (List Char)
  field_of_study : Option (List Char)
  location : Option (List Char)
  start_date : Option (List Char)
  end_date : Option (List Char)
  gpa : Option (List Char)
  description : Option (List Char)

/-- A row of the `skills` table. -/
structure SkillRow where
  name : Option (List Char)
  category : Option (List Char)
  proficiency : Option (List Char)

/-- A `users` row together with its related sections, as read by
`optimize_resume_for_job`. -/
structure User where
  name : Option (List Char)
  email : Option (List Char)
  phone : Option (List Char)
  address : Option (List Char)
  linkedin : Option (List Char)
  github : Option (List Char)
  website : Option (List Char)
  summary : Option (List Char)
  experiences : List Experience
  educations : List Education
  skills : List SkillRow

/-- A nullable column value as a JSON value. -/
def jsonOfOpt : Option (List Char) → Json
  | none => Json.null
  | some s => Json.str s

/-- `exp.achievements.split("\n") if exp.achievements else []`
(the column is falsy when NULL or the empty string). -/
def achList : Option (List Char) → List (List Char)
  | none => []
  | some s => if s = [] then [] else splitNL s

/-- One entry of `resume_data["experiences"]`. -/
def experienceJson (e : Experience) : Json :=
  Json.obj [
    ("company".data, jsonOfOpt e.company),
    ("title".data, jsonOfOpt e.title),
    ("location".data, jsonOfOpt e.location),
    ("start_date".data, jsonOfOpt e.start_date),
    ("end_date".data, jsonOfOpt e.end_date),
    ("description".data, jsonOfOpt e.description),
    ("achievements".data, Json.arr ((achList e.achievements).map Json.str))]

/-- One entry of `resume_data["educations"]`. -/
def educationJson (e : Education) : Json :=
  Json.obj [
    ("institution".data, jsonOfOpt e.institution),
    ("degree".data, jsonOfOpt e.degree),
    ("field_of_study".data, jsonOfOpt e.field_of_study),
    ("location".data, jsonOfOpt e.location),
    ("start_date".data, jsonOfOpt e.start_date),
    ("end_date".data, jsonOfOpt e.end_date),
    ("gpa".data, jsonOfOpt e.gpa),
    ("description".data, jsonOfOpt e.description)]

/-- One entry of `resume_data["skills"]`. -/
def skillJson (s : SkillRow) : Json :=
  Json.obj [
    ("name".data, jsonOfOpt s.name),
    ("category".data, jsonOfOpt s.category),
    ("proficiency".data, jsonOfOpt s.proficiency)]

/-- The `resume_data` dict assembled by `optimize_resume_for_job`
(ai_manager.py:320-374).  The certifications/projects/publications/
achievements sections are left empty exactly as in the source ("[Code for
other sections omitted for brevity]"). -/
def resume_data_of (u : User) : Json :=
  Json.obj [
    ("basic_info".data, Json.obj [
      ("name".data, jsonOfOpt u.name),
      ("email".data, jsonOfOpt u.email),
      ("phone".data, jsonOfOpt u.phone),
      ("address".data, jsonOfOpt u.address),
      ("linkedin".data, jsonOfOpt u.linkedin),
      ("github".data, jsonOfOpt u.github),
      ("website".data, jsonOfOpt u.website),
      ("summary".data, jsonOfOpt u.summary)]),
    ("experiences".data, Json.arr (u.experiences.map experienceJson)),
    ("educations".data, Json.arr (u.educations.map educationJson)),
    ("skills".data, Json.arr (u.skills.map skillJson)),
    ("certifications".data, Json.arr []),
    ("projects".data, Json.arr []),
    ("publications".data, Json.arr []),
    ("achievements".data, Json.arr [])]

/-- `if not job_analysis: job_analysis = analyze_job_description(...)`
(ai_manager.py:315-317): the job analysis actually used by the
optimization step. -/
def optimize_job_analysis (loads : List Char → Option Json)
    (complete : List Char → Except Unit (List Char))
    (job_description : List Char) (job_analysis : Option Json) : Json :=
  match job_analysis with
  | none => analyze_job_description loads complete job_description
  | some j =>
    if jsonFalsy j then analyze_job_description loads complete job_description else j

/-- The prompt submitted by the optimization step (`dumps` is the stdlib
`json.dumps` collaborator used for both embedded mappings). -/
def optimize_prompt_for (loads : List Char → Option Json)
    (dumps : Json → List Char)
    (complete : List Char → Except Unit (List Char))
    (u : User) (job_description : List Char) (job_analysis : Option Json) : List Char :=
  optimizePrompt (dumps (resume_data_of u)) job_description
    (dumps (optimize_job_analysis loads complete job_description job_analysis))

/-- `optimize_resume_for_job` (ai_manager.py:294).  The persistence lookup
`session.query(User).filter(...).first()` enters as `userLookup`
(`none` models "user not found", which the source answers with `return
Json.obj []` after logging).  A raised backend exception reaches the outer
handler and yields the empty mapping; a `json.JSONDecodeError` is caught
by the inner handler and yields the assembled `resume_data`. -/
def optimize_resume_for_job (loads : List Char → Option Json)
    (dumps : Json → List Char)
    (complete : List Char → Except Unit (List Char))
    (userLookup : Option User)
    (job_description : List Char) (job_analysis : Option Json) : Json :=
  match userLookup with
  | none => Json.obj []
  | some u =>
    match complete (optimize_prompt_for loads dumps complete u job_description job_analysis) with
    | .error _ => Json.obj []
    | .ok result_text =>
      match loads (extract_json_candidate result_text) with
      | some optimized_data => optimized_data
      | none => resume_data_of u

/-- The module-level configuration globals of `ai_manager.py`. -/
structure ModelConfig where
  MODEL_PROVIDER : List Char
  LLM_MODEL : List Char
  OLLAMA_MODEL : List Char
deriving DecidableEq, Repr

def openaiName : List Char := "openai".data

def ollamaName : List Char := "ollama".data

/-- The configuration after the assignments of `set_model_provider` for a
valid provider: `MODEL_PROVIDER = provider.lower()`, then the respective
model global when `model` is truthy. -/
def applied_config (provider : List Char) (model : Option (List Char))
    (cfg : ModelConfig) : ModelConfig :=
  let cfg1 : ModelConfig := { cfg with MODEL_PROVIDER := pyLower provider }
  match model with
  | none => cfg1
  | some m =>
    if m = [] then cfg1
    else if cfg1.MODEL_PROVIDER = openaiName then { cfg1 with LLM_MODEL := m }
    else { cfg1 with OLLAMA_MODEL := m }

/-- `set_model_provider` (ai_manager.py:63) as a state transformer on the
module globals.  `get_llm_ok` models whether `get_llm()` succeeds on a
given configuration (its raising path is the only exception source in the
`try` block); when it fails the function returns `False` but the
assignments have already happened. -/
def set_model_provider (get_llm_ok : ModelConfig → Bool)
    (provider : List Char) (model : Option (List Char))
    (cfg : ModelConfig) : Bool × ModelConfig :=
  if pyLower provider = openaiName ∨ pyLower provider = ollamaName then
    let cfg2 := applied_config provider model cfg
    if get_llm_ok cfg2 then (true, cfg2) else (false, cfg2)
  else (false, cfg)

/-- The skill matching comprehensions of `render_job_matching_page`
(ui.py:502-511):

    all_skills = required_skills + preferred_skills
    matching_skills = [skill for skill in resume_skills
                       if any(job_skill.lower() in skill.lower() for job_skill in all_skills)]
    missing_skills = [skill for skill in all_skills
                      if not any(skill.lower() in resume_skill.lower() for resume_skill in resume_skills)]
-/
def match_skills (resume_skills required_skills preferred_skills : List (List Char)) :
    List (List Char) × List (List Char) :=
  let all_skills := required_skills ++ preferred_skills
  let matching_skills := resume_skills.filter (fun skill =>
    all_skills.any (fun job_skill => containsSeq (pyLower job_skill) (pyLower skill)))
  let missing_skills := all_skills.filter (fun skill =>
    !(resume_skills.any (fun resume_skill => containsSeq (pyLower skill) (pyLower resume_skill))))
  (matching_skills, missing_skills)

/-- Case-insensitive substring containment as the spec states it: the
lowercasing of `t` occurs inside the lowercasing of `s`. -/
def CISub (t s : List Char) : Prop := pyLower t <:+: pyLower s

instance (t s : List Char) : Decidable (CISub t s) :=
  List.decidableInfix (pyLower t) (pyLower s)

/-- Occurrence test agrees with list infix containment. -/
theorem containsSeq_true_iff (sep l : List Char) :
    containsSeq sep l = true ↔ sep <:+: l := by
  induction l with
  | nil =>
    by_cases hs : sep = []
    · subst hs
      simp [containsSeq, splitFirst?]
    · simp [containsSeq, splitFirst?, hs, List.infix_nil, List.isEmpty_iff]
  | cons c rest ih =>
    by_cases hp : sep.isPrefixOf (c :: rest) = true
    · have hpre : sep <+: c :: rest := List.isPrefixOf_iff_prefix.mp hp
      simp only [containsSeq, splitFirst?, hp, if_true, Option.isSome_some, true_iff]
      exact List.IsPrefix.isInfix hpre
    · have hnp : ¬ sep <+: c :: rest := fun hc => hp ( List.isPrefixOf_iff_prefix.mpr hc)
      simp only [containsSeq, splitFirst?, hp, if_false]
      rw [ List.infix_cons_iff]
      simp only [hnp, false_or]
      rw [← ih]
      unfold containsSeq
      cases hsf : splitFirst? sep rest with
      | none => simp [hsf]
      | some p => simp [hsf]

/-- The part before the first occurrence is an initial segment of the input. -/
theorem splitFirst_pre_front (sep : List Char) :
    ∀ l pre post, splitFirst? sep l = some (pre, post) → pre <+: l := by
  intro l
  induction l with
  | nil =>
    intro pre post h
    by_cases hs : sep.isEmpty
    · simp [splitFirst?, hs] at h
      simp [h.1]
    · simp [splitFirst?, hs] at h
  | cons c rest ih =>
    intro pre post h
    by_cases hp : sep.isPrefixOf (c :: rest) = true
    · simp only [splitFirst?, hp, if_true, Option.some.injEq, Prod.mk.injEq] at h
      rw [← h.1]
      exact List.nil_prefix
    · simp only [splitFirst?, hp, if_false] at h
      cases hsf : splitFirst? sep rest with
      | none => rw [hsf] at h; exact absurd h (by simp)
      | some p =>
        rcases p with ⟨pre1, post1⟩
        rw [hsf] at h
        simp only [hp, if_false, Bool.false_eq_true, Option.some.injEq, Prod.mk.injEq] at h
        have hih := ih pre1 post1 hsf
        rw [← h.1]
        exact List.cons_prefix_cons.mpr ⟨rfl, hih⟩

/-- The part before the first occurrence of a nonempty separator contains
no further occurrence of it. -/
theorem splitFirst_pre_clean (sep : List Char) (hs : sep ≠ []) :
    ∀ l pre post, splitFirst? sep l = some (pre, post) → splitFirst? sep pre = none := by
  intro l
  induction l with
  | nil =>
    intro pre post h
    simp [splitFirst?, List.isEmpty_iff, hs] at h
  | cons c rest ih =>
    intro pre post h
    by_cases hp : sep.isPrefixOf (c :: rest) = true
    · simp only [splitFirst?, hp, if_true, Option.some.injEq, Prod.mk.injEq] at h
      rw [← h.1]
      simp [splitFirst?, List.isEmpty_iff, hs]
    · simp only [splitFirst?, hp, if_false] at h
      cases hsf : splitFirst? sep rest with
      | none => rw [hsf] at h; exact absurd h (by simp)
      | some p =>
        rcases p with ⟨pre1, post1⟩
        rw [hsf] at h
        simp only [hp, if_false, Bool.false_eq_true, Option.some.injEq, Prod.mk.injEq] at h
        have hih := ih pre1 post1 hsf
        have hfront := splitFirst_pre_front sep rest pre1 post1 hsf
        rw [← h.1]
        have hnp2 : ¬ sep.isPrefixOf (c :: pre1) = true := by
          intro hc
          apply hp
          apply List.isPrefixOf_iff_prefix.mpr
          exact List.IsPrefix.trans ( List.isPrefixOf_iff_prefix.mp hc)
            (List.cons_prefix_cons.mpr ⟨rfl, hfront⟩)
        simp [splitFirst?, hnp2, hih]

/-- Truncating before the first occurrence of a nonempty separator is
idempotent. -/
theorem beforeFirstOrAll_idem (sep l : List Char) (hs : sep ≠ []) :
    beforeFirstOrAll sep (beforeFirstOrAll sep l) = beforeFirstOrAll sep l := by
  cases hsf : splitFirst? sep l with
  | none => simp [beforeFirstOrAll, hsf]
  | some p =>
    rcases p with ⟨pre, post⟩
    have hclean := splitFirst_pre_clean sep hs l pre post hsf
    simp [beforeFirstOrAll, hsf, hclean]

/-- C3 (counterexample): the source selects the candidate by splitting on
the labeled marker first, so on `"```json{}`````jsonC"` it keeps the two
backticks preceding the second labeled marker (`"{}``"`, not valid JSON),
while the spec's "substring between the first ```json marker and the next
``` marker" yields `"{}"` (valid JSON); and in the no-fence branch the
source does not trim (`" 5"` stays untrimmed). -/
theorem C3_candidate_selection_counterexample :
    extract_json_candidate ("```json\x7b\x7d`````jsonC".data) ≠
      spec_candidate ("```json\x7b\x7d`````jsonC".data)
  ∧ jsonLoads (extract_json_candidate ("```json\x7b\x7d`````jsonC".data)) = none
  ∧ jsonLoads (spec_candidate ("```json\x7b\x7d`````jsonC".data)) = some (Json.obj [])
  ∧ extract_json_candidate (" 5".data) ≠ spec_candidate (" 5".data) :=
  ⟨by decide, rfl, rfl, by decide⟩

/-- C3 (amended): `extract_json` selects its candidate as the spec says
except that (a) in the ```json branch the remainder after the first
```json marker is cut at the next ```json occurrence before being cut at
the first ``` marker, and (b) the no-fence branch uses the whole string
untrimmed; the fenced branches trim surrounding whitespace, and the
trimmed candidate is then strictly JSON-parsed (`extract_json`). -/
theorem C3_candidate_selection_amended (t : List Char) :
    extract_json_candidate t = amended_candidate t := by
  unfold extract_json_candidate amended_candidate
  by_cases h1 : containsSeq jsonFenceMarker t = true
  · rw [if_pos h1, if_pos h1]
    have hg : pySplitGet1 jsonFenceMarker t
        = beforeFirstOrAll jsonFenceMarker (afterFirstD jsonFenceMarker t) := by
      unfold pySplitGet1 afterFirstD
      cases hsf : splitFirst? jsonFenceMarker t with
      | none =>
        exfalso
        unfold containsSeq at h1
        rw [hsf] at h1
        simp at h1
      | some p => rfl
    rw [hg]
  · rw [if_neg h1, if_neg h1]
    by_cases h2 : containsSeq fenceMarker t = true
    · rw [if_pos h2, if_pos h2]
      cases hsf : splitFirst? fenceMarker t with
      | none =>
        exfalso
        unfold containsSeq at h2
        rw [hsf] at h2
        simp at h2
      | some p =>
        rcases p with ⟨pre, post⟩
        have hg : pySplitGet1 fenceMarker t = beforeFirstOrAll fenceMarker post := by
          unfold pySplitGet1
          rw [hsf]
        have ha : afterFirstD fenceMarker t = post := by
          unfold afterFirstD
          rw [hsf]
        rw [hg, ha, beforeFirstOrAll_idem fenceMarker post (by decide)]
    · rw [if_neg h2, if_neg h2]

/-- Bool-level `any` of the source's containment test agrees with the
spec-level "some target is a case-insensitive substring". -/
theorem any_containsSeq_eq (l : List (List Char)) (s : List Char) :
    (l.any fun js => containsSeq (pyLower js) (pyLower s))
      = decide (∃ t ∈ l, CISub t s) := by
  cases hb : l.any fun js => containsSeq (pyLower js) (pyLower s) with
  | true =>
    rcases List.any_eq_true.mp hb with ⟨t, ht, hc⟩
    have : CISub t s := (containsSeq_true_iff _ _).mp hc
    exact (decide_eq_true ⟨t, ht, this⟩).symm
  | false =>
    refine (decide_eq_false ?_).symm
    rintro ⟨t, ht, hc⟩
    have hcb : containsSeq (pyLower t) (pyLower s) = true := (containsSeq_true_iff _ _).mpr hc
    have hany : (l.any fun js => containsSeq (pyLower js) (pyLower s)) = true :=
      List.any_eq_true.mpr ⟨t, ht, hcb⟩
    rw [hb] at hany
    exact Bool.noConfusion hany

/-- Bool-level negated `any` agrees with the spec-level "no resume skill
contains the target". -/
theorem not_any_containsSeq_eq (rs : List (List Char)) (t : List Char) :
    (!(rs.any fun r => containsSeq (pyLower t) (pyLower r)))
      = decide (∀ s ∈ rs, ¬ CISub t s) := by
  cases hb : rs.any fun r => containsSeq (pyLower t) (pyLower r) with
  | true =>
    rcases List.any_eq_true.mp hb with ⟨r, hr, hc⟩
    refine (decide_eq_false ?_).symm
    intro hall
    exact hall r hr ((containsSeq_true_iff _ _).mp hc)
  | false =>
    refine (decide_eq_true ?_).symm
    intro s hs hc
    have hcb : containsSeq (pyLower t) (pyLower s) = true := (containsSeq_true_iff _ _).mpr hc
    have hany : (rs.any fun r => containsSeq (pyLower t) (pyLower r)) = true :=
      List.any_eq_true.mpr ⟨s, hs, hcb⟩
    rw [hb] at hany
    exact Bool.noConfusion hany

/-- C2: `matching_skills` is exactly the resume skills some target is a
case-insensitive substring of, `missing_skills` is exactly the targets
(required ++ preferred, in order) that no resume skill contains
case-insensitively, and the spec's worked example holds. -/
theorem C2_skill_match_characterization (rs req pref : List (List Char)) :
    (match_skills rs req pref).1
      = rs.filter (fun s => decide (∃ t ∈ req ++ pref, CISub t s))
  ∧ (match_skills rs req pref).2
      = (req ++ pref).filter (fun t => decide (∀ s ∈ rs, ¬ CISub t s))
  ∧ match_skills ["Python Programming".data, "SQL".data] ["python".data] []
      = (["Python Programming".data], []) := by
  refine ⟨?_, ?_, by decide⟩
  · exact List.filter_congr (fun s _ => any_containsSeq_eq (req ++ pref) s)
  · exact List.filter_congr (fun t _ => not_any_containsSeq_eq rs t)

/-- C8: the matcher is pure and total (a total function here); empty
inputs yield empty outputs; each output preserves the input order of its
source sequence (it is a sublist of it) and performs no deduplication
(occurrence counts of selected elements are preserved). -/
theorem C8_skill_match_total_and_ordered (rs req pref : List (List Char)) :
    match_skills [] [] [] = ([], [])
  ∧ (match_skills rs req pref).1.Sublist rs
  ∧ (match_skills rs req pref).2.Sublist (req ++ pref)
  ∧ (∀ s, s ∈ (match_skills rs req pref).1 →
      (match_skills rs req pref).1.count s = rs.count s)
  ∧ (∀ t, t ∈ (match_skills rs req pref).2 →
      (match_skills rs req pref).2.count t = (req ++ pref).count t) := by
  refine ⟨rfl, List.filter_sublist rs, List.filter_sublist _, ?_, ?_⟩
  · intro s hs
    exact List.count_filter (List.mem_filter.mp hs).2
  · intro t ht
    exact List.count_filter (List.mem_filter.mp ht).2

/-- Witness for C8 at concrete inputs: the empty boundary, and a
duplicated matching skill is reported twice (no deduplication). -/
theorem C8_skill_match_total_and_ordered_witness :
    match_skills [] [] [] = ([], [])
  ∧ (match_skills ["Go".data, "Go".data] ["go".data] []).1.count "Go".data
      = (["Go".data, "Go".data] : List (List Char)).count "Go".data := by
  have h := C8_skill_match_total_and_ordered ["Go".data, "Go".data] ["go".data] []
  exact ⟨h.1, h.2.2.2.1 "Go".data (by decide)⟩

/-- A concrete nonempty user record for witnesses. -/
def sampleUser : User :=
  { name := some "Ada".data, email := some "ada@example.com".data,
    phone := none, address := none, linkedin := none, github := none,
    website := none, summary := some "Engineer".data,
    experiences := [{ company := some "Acme".data, title := some "Dev".data,
                      location := none, start_date := none, end_date := none,
                      description := none,
                      achievements := some "Shipped X\nLed Y".data }],
    educations := [],
    skills := [{ name := some "Python".data, category := none, proficiency := none }] }

/-- The assembled resume record is never the empty mapping. -/
theorem resume_data_of_ne_empty (u : User) : resume_data_of u ≠ Json.obj [] := by
  intro h
  have h2 := congrArg Json.objFieldCount h
  simp [resume_data_of, Json.objFieldCount] at h2

/-- A fixed completion that is not valid JSON. -/
def stubNotJson : List Char := "this is not JSON".data

/-- C1: when the optimization completion fails the strict JSON parse after
fence-stripping, `optimize_resume_for_job` returns the assembled original
resume record unchanged, field-for-field — which is never the empty
mapping. -/
theorem C1_optimize_returns_original_on_parse_failure
    (loads : List Char → Option Json) (dumps : Json → List Char)
    (complete : List Char → Except Unit (List Char))
    (u : User) (jd : List Char) (jaP : Option Json) (s : List Char)
    (hok : complete (optimize_prompt_for loads dumps complete u jd jaP) = Except.ok s)
    (hfail : loads (extract_json_candidate s) = none) :
    optimize_resume_for_job loads dumps complete (some u) jd jaP = resume_data_of u
  ∧ resume_data_of u ≠ Json.obj [] := by
  constructor
  · simp only [optimize_resume_for_job, hok, hfail]
  · exact resume_data_of_ne_empty u

/-- Witness for C1: a stub backend returning a fixed non-JSON string
leaves the sample user's assembled resume intact. -/
theorem C1_optimize_returns_original_on_parse_failure_witness :
    optimize_resume_for_job jsonLoads (fun _ => []) (fun _ => Except.ok stubNotJson)
      (some sampleUser) ("job".data) none = resume_data_of sampleUser :=
  (C1_optimize_returns_original_on_parse_failure jsonLoads (fun _ => [])
    (fun _ => Except.ok stubNotJson) sampleUser ("job".data) none stubNotJson
    rfl rfl).1

/-- A backend that fails on the parse-resume prompt for "A" and the
job-analysis prompt for "A", and otherwise completes with a fixed
non-JSON string. -/
def stubMixedComplete : List Char → Except Unit (List Char) :=
  fun p =>
    if p = resumePrompt ("A".data) ∨ p = jobPrompt ("A".data) then Except.error ()
    else Except.ok stubNotJson

/-- C4: for both structured extractors, a raised backend call and a failed
JSON parse of the completion each degrade to the empty mapping (the
functions are total, modelling "never raise to their caller"). -/
theorem C4_extractors_degrade_to_empty
    (loads : List Char → Option Json)
    (complete : List Char → Except Unit (List Char))
    (rt1 rt2 jt1 jt2 s1 s2 : List Char) :
    (complete (resumePrompt rt1) = Except.error () →
        parse_resume loads complete rt1 = Json.obj [])
  ∧ (complete (resumePrompt rt2) = Except.ok s1 →
      loads (extract_json_candidate s1) = none →
        parse_resume loads complete rt2 = Json.obj [])
  ∧ (complete (jobPrompt jt1) = Except.error () →
        analyze_job_description loads complete jt1 = Json.obj [])
  ∧ (complete (jobPrompt jt2) = Except.ok s2 →
      loads (extract_json_candidate s2) = none →
        analyze_job_description loads complete jt2 = Json.obj []) := by
  refine ⟨?_, ?_, ?_, ?_⟩
  · intro h
    simp only [parse_resume, h]
  · intro h1 h2
    simp only [parse_resume, h1, h2]
  · intro h
    simp only [analyze_job_description, h]
  · intro h1 h2
    simp only [analyze_job_description, h1, h2]

set_option maxRecDepth 40000 in
/-- Witness for C4: with the mixed stub backend, both extractors return
the empty mapping on the backend-failure input "A" and on the
non-JSON-completion input "B". -/
theorem C4_extractors_degrade_to_empty_witness :
    parse_resume jsonLoads stubMixedComplete ("A".data) = Json.obj []
  ∧ parse_resume jsonLoads stubMixedComplete ("B".data) = Json.obj []
  ∧ analyze_job_description jsonLoads stubMixedComplete ("A".data) = Json.obj []
  ∧ analyze_job_description jsonLoads stubMixedComplete ("B".data) = Json.obj [] := by
  have h := C4_extractors_degrade_to_empty jsonLoads stubMixedComplete
    ("A".data) ("B".data) ("A".data) ("B".data) stubNotJson stubNotJson
  exact ⟨h.1 rfl, h.2.1 rfl rfl, h.2.2.1 rfl, h.2.2.2 rfl rfl⟩

/-- C5 (counterexample): when the backend call itself fails during
optimize, the source's outer handler returns the EMPTY mapping, not the
original input resume — so recovery is not identical to a parse failure. -/
theorem C5_backend_failure_counterexample :
    optimize_resume_for_job jsonLoads (fun _ => []) (fun _ => Except.error ())
      (some sampleUser) ("job".data) none = Json.obj []
  ∧ Json.obj [] ≠ resume_data_of sampleUser :=
  ⟨rfl, (resume_data_of_ne_empty sampleUser).symm⟩

/-- C5 (amended): a backend failure during optimize never raises to the
caller, but it is recovered with the empty mapping (the
StructuredExtractor degraded value), not with the original input
resume. -/
theorem C5_backend_failure_returns_empty_amended
    (loads : List Char → Option Json) (dumps : Json → List Char)
    (complete : List Char → Except Unit (List Char))
    (u : User) (jd : List Char) (jaP : Option Json)
    (hfail : complete (optimize_prompt_for loads dumps complete u jd jaP) = Except.error ()) :
    optimize_resume_for_job loads dumps complete (some u) jd jaP = Json.obj [] := by
  simp only [optimize_resume_for_job, hfail]

/-- Witness for the amended C5 at a concrete failing backend. -/
theorem C5_backend_failure_returns_empty_amended_witness :
    optimize_resume_for_job jsonLoads (fun _ => []) (fun _ => Except.error ())
      (some sampleUser) ("jd".data) none = Json.obj [] :=
  C5_backend_failure_returns_empty_amended jsonLoads (fun _ => [])
    (fun _ => Except.error ()) sampleUser ("jd".data) none rfl

/-- C6 (counterexample): for a missing user record the source returns the
empty mapping — exactly the same value the backend-failure degradation
produces — so the caller receives no distinguishable explicit failure
signal. -/
theorem C6_user_not_found_counterexample :
    optimize_resume_for_job jsonLoads (fun _ => []) (fun _ => Except.error ())
      none ("job".data) none = Json.obj []
  ∧ optimize_resume_for_job jsonLoads (fun _ => []) (fun _ => Except.error ())
      (some sampleUser) ("job".data) none = Json.obj [] :=
  ⟨rfl, rfl⟩

/-- C6 (amended): when the persistence lookup has no record for the user,
`optimize_resume_for_job` logs the error and returns the empty mapping —
the same degraded value as extraction/backend failures, not a
distinguishable failure signal. -/
theorem C6_user_not_found_returns_empty_amended
    (loads : List Char → Option Json) (dumps : Json → List Char)
    (complete : List Char → Except Unit (List Char))
    (jd : List Char) (jaP : Option Json) :
    optimize_resume_for_job loads dumps complete none jd jaP = Json.obj [] := rfl

/-- C7: when the fence-stripped candidate is not valid JSON, `extract_json`
signals ExtractionFailure (`none`) — it is a total function, so no error
escapes — including on the spec's own malformed example. -/
theorem C7_extract_json_failure_signal
    (loads : List Char → Option Json) (t : List Char)
    (h : loads (extract_json_candidate t) = none) :
    extract_json loads t = none
  ∧ extract_json jsonLoads ("```json\n\x7bnot valid\n```".data) = none :=
  ⟨by simp [extract_json, h], rfl⟩

/-- Witness for C7 at the spec's malformed example itself. -/
theorem C7_extract_json_failure_signal_witness :
    extract_json jsonLoads ("```json\n\x7bnot valid\n```".data) = none :=
  (C7_extract_json_failure_signal jsonLoads ("```json\n\x7bnot valid\n```".data) rfl).1

/-- C9: a falsy `job_analysis` argument (e.g. the empty mapping a failed
job extraction produces) is treated as absent: the analysis is recomputed
from the raw job description and that recomputed analysis is what the
optimization prompt embeds, so the call behaves exactly like the
no-analysis call. -/
theorem C9_falsy_job_analysis_recomputed
    (loads : List Char → Option Json) (dumps : Json → List Char)
    (complete : List Char → Except Unit (List Char))
    (u : User) (jd : List Char) (j : Json)
    (h : jsonFalsy j = true) :
    optimize_prompt_for loads dumps complete u jd (some j)
      = optimizePrompt (dumps (resume_data_of u)) jd
          (dumps (analyze_job_description loads complete jd))
  ∧ optimize_resume_for_job loads dumps complete (some u) jd (some j)
      = optimize_resume_for_job loads dumps complete (some u) jd none := by
  have hja : optimize_job_analysis loads complete jd (some j)
      = analyze_job_description loads complete jd := by
    simp [optimize_job_analysis, h]
  constructor
  · simp [optimize_prompt_for, hja]
  · simp [optimize_resume_for_job, optimize_prompt_for, optimize_job_analysis, h]

/-- Witness for C9: passing the empty mapping behaves like passing
nothing. -/
theorem C9_falsy_job_analysis_recomputed_witness :
    optimize_resume_for_job jsonLoads (fun _ => []) (fun _ => Except.error ())
      (some sampleUser) ("job".data) (some (Json.obj []))
    = optimize_resume_for_job jsonLoads (fun _ => []) (fun _ => Except.error ())
      (some sampleUser) ("job".data) none :=
  (C9_falsy_job_analysis_recomputed jsonLoads (fun _ => []) (fun _ => Except.error ())
    sampleUser ("job".data) (Json.obj []) rfl).2

/-- C10: an invalid provider leaves the configuration untouched and
returns False; a valid provider whose `get_llm()` test fails also returns
False, but the returned configuration is the already-mutated one, with
`MODEL_PROVIDER` set to the lowered provider. -/
theorem C10_set_model_provider_config_effects
    (get_llm_ok : ModelConfig → Bool) (p : List Char)
    (m : Option (List Char)) (cfg : ModelConfig) :
    (¬ (pyLower p = openaiName ∨ pyLower p = ollamaName) →
        set_model_provider get_llm_ok p m cfg = (false, cfg))
  ∧ ((pyLower p = openaiName ∨ pyLower p = ollamaName) →
      get_llm_ok (applied_config p m cfg) = false →
        set_model_provider get_llm_ok p m cfg = (false, applied_config p m cfg)
        ∧ (applied_config p m cfg).MODEL_PROVIDER = pyLower p) := by
  constructor
  · intro h
    simp [set_model_provider, h]
  · intro hv hok
    refine ⟨?_, ?_⟩
    · simp [set_model_provider, hv, hok]
    · unfold applied_config
      cases m with
      | none => rfl
      | some mm =>
        by_cases hm : mm = []
        · simp [hm]
        · by_cases ho : pyLower p = openaiName
          · simp [hm, ho]
          · simp [hm, ho]

/-- The configuration from the environment-variable defaults. -/
def defaultConfig : ModelConfig :=
  { MODEL_PROVIDER := "openai".data, LLM_MODEL := "gpt-4-turbo".data,
    OLLAMA_MODEL := "mistral".data }

/-- Witness for C10: an invalid provider leaves the default configuration
unchanged; a valid provider with a failing connection test returns False
with the mutated configuration. -/
theorem C10_set_model_provider_config_effects_witness :
    set_model_provider (fun _ => false) ("oracle".data) none defaultConfig
      = (false, defaultConfig)
  ∧ set_model_provider (fun _ => false) ("Ollama".data) (some ("phi".data)) defaultConfig
      = (false, applied_config ("Ollama".data) (some ("phi".data)) defaultConfig)
  ∧ (applied_config ("Ollama".data) (some ("phi".data)) defaultConfig).MODEL_PROVIDER
      = pyLower ("Ollama".data) := by
  have h1 := C10_set_model_provider_config_effects (fun _ => false)
    ("oracle".data) none defaultConfig
  have h2 := C10_set_model_provider_config_effects (fun _ => false)
    ("Ollama".data) (some ("phi".data)) defaultConfig
  exact ⟨h1.1 (by decide), (h2.2 (by decide) rfl).1, (h2.2 (by decide) rfl).2⟩
